import Mathlib

/-!
Shallow embedding of the generic Mongoose repository wrapper
(`src/generic-database.ts`, class `GenericDatabase`) and of the populate
normalization helper (`dist/generic-helper.js`, `normalizePopulate`).

Modelling conventions:
- JavaScript objects used as query filters / update payloads are association
  lists `List (String × FVal)`; the spread `{ ...filter, isDeleted: false }`
  appends the overriding binding at the end, and `getKey` reads the *last*
  binding of a key, matching the override semantics of object spread.
- Each repository method is split into (a) a query builder describing the one
  underlying mapper call the method issues (`...Query`), and (b) a result
  handler that consumes the awaited outcome of that call (resolution with a
  value or `null`, or rejection with a thrown value) and produces the method's
  own result (a return value or a thrown value), reproducing the try/catch
  logic of the source.
- NestJS `NotFoundException` and `BadRequestException` both extend `Error`,
  so `error instanceof Error` is true for them; a thrown value is either one
  of these exception objects, a plain `Error`, or a non-`Error` value.
-/

/-- A primitive JavaScript value appearing in filters, documents and thrown
non-Error values. -/
inductive FVal where
  | bool : Bool → FVal
  | str : String → FVal
  | num : Int → FVal
deriving DecidableEq, Repr

/-- A query-filter / update object: an association list of fields. -/
abbrev FilterObj := List (String × FVal)

/-- A document, as far as this wrapper observes it: a field list. -/
abbrev Doc := List (String × FVal)

/-- Reads a key from an object modelled as an association list, with the
last binding winning — the override semantics of JavaScript object spread. -/
def getKey (f : FilterObj) (k : String) : Option FVal :=
  match f with
  | [] => none
  | (k2, v) :: rest =>
    match getKey rest k with
    | some w => some w
    | none => if k2 = k then some v else none

/-- The object `{ ...filter, isDeleted: false }` built by the filter-taking
methods of `GenericDatabase`. -/
def spreadWithIsDeletedFalse (f : FilterObj) : FilterObj :=
  f ++ [("isDeleted", FVal.bool false)]

/-- One call to the underlying document-mapper's query API. The deletion
constructors exist in the mapper's API but are never produced by any method
of `GenericDatabase`. -/
inductive MapperCall where
  | findOne : FilterObj → MapperCall
  | find : FilterObj → MapperCall
  | findOneAndUpdate : FilterObj → FilterObj → Bool → MapperCall
  | saveNew : Doc → MapperCall
  | deleteOne : FilterObj → MapperCall
  | deleteMany : FilterObj → MapperCall
deriving DecidableEq, Repr

/-- The call issued by `genericFindByUsername`:
`findOne({ username, isDeleted: false })`. -/
def genericFindByUsernameQuery (username : String) : MapperCall :=
  MapperCall.findOne [("username", FVal.str username), ("isDeleted", FVal.bool false)]

/-- The call issued by `genericFindAll`: `find({ isDeleted: false })`. -/
def genericFindAllQuery : MapperCall :=
  MapperCall.find [("isDeleted", FVal.bool false)]

/-- The call issued by `genericFindOneByIdOrNotFound`:
`findOne({ _id: id, isDeleted: false })`. -/
def genericFindOneByIdOrNotFoundQuery (id : String) : MapperCall :=
  MapperCall.findOne [("_id", FVal.str id), ("isDeleted", FVal.bool false)]

/-- The call issued by `genericCreateOne`: `new this.dbModel(createDto).save()`. -/
def genericCreateOneQuery (createDto : Doc) : MapperCall :=
  MapperCall.saveNew createDto

/-- The call issued by `genericUpdateOne`:
`findOneAndUpdate({ _id: id, isDeleted: false }, updateDto, { new: true })`. -/
def genericUpdateOneQuery (id : String) (updateDto : FilterObj) : MapperCall :=
  MapperCall.findOneAndUpdate
    [("_id", FVal.str id), ("isDeleted", FVal.bool false)] updateDto true

/-- The call issued by `genericDeleteOne`:
`findOneAndUpdate({ _id: id, isDeleted: false }, { isDeleted: true }, { new: true })`. -/
def genericDeleteOneQuery (id : String) : MapperCall :=
  MapperCall.findOneAndUpdate
    [("_id", FVal.str id), ("isDeleted", FVal.bool false)]
    [("isDeleted", FVal.bool true)] true

/-- The call issued by `genericFindOne`:
`findOne({ ...filter, isDeleted: false })`. -/
def genericFindOneQuery (filter : FilterObj) : MapperCall :=
  MapperCall.findOne (spreadWithIsDeletedFalse filter)

/-- The call issued by `genericFindOneWithPopulate`:
`findOne({ ...filter, isDeleted: false })`. -/
def genericFindOneWithPopulateQuery (filter : FilterObj) : MapperCall :=
  MapperCall.findOne (spreadWithIsDeletedFalse filter)

/-- The call issued by `genericFindAllWithPopulate`:
`find({ ...filter, isDeleted: false })`. -/
def genericFindAllWithPopulateQuery (filter : FilterObj) : MapperCall :=
  MapperCall.find (spreadWithIsDeletedFalse filter)

/-- The call issued by `genericFindOneOrNotFound`:
`findOne({ ...filter, isDeleted: false })`. -/
def genericFindOneOrNotFoundQuery (filter : FilterObj) : MapperCall :=
  MapperCall.findOne (spreadWithIsDeletedFalse filter)

/-- The filter the mapper call sends constrains `isDeleted` to `false`
(vacuously false for calls that carry no filter condition on documents). -/
def queryFiltersNonDeleted : MapperCall → Prop
  | MapperCall.findOne f => getKey f "isDeleted" = some (FVal.bool false)
  | MapperCall.find f => getKey f "isDeleted" = some (FVal.bool false)
  | MapperCall.findOneAndUpdate f _ _ => getKey f "isDeleted" = some (FVal.bool false)
  | MapperCall.saveNew _ => False
  | MapperCall.deleteOne _ => False
  | MapperCall.deleteMany _ => False

/-- Whether a mapper call physically removes documents. -/
def isHardDeletion : MapperCall → Bool
  | MapperCall.deleteOne _ => true
  | MapperCall.deleteMany _ => true
  | _ => false

/-! Populate normalization (`dist/generic-helper.js`). The input is
`populate?: string | PopulateOptions | (string | PopulateOptions)[]`:
absent (`undefined`, modelled by `none`), a string, a single options object,
or an array of strings / options objects. -/

/-- An element of a populate array: a string or a `PopulateOptions` object
(modelled by its field list; `normalizePopulate` never reads field values). -/
inductive PopElem where
  | pstr : String → PopElem
  | pobj : List (String × String) → PopElem
deriving DecidableEq, Repr

/-- A present (non-`undefined`) populate argument. -/
inductive Populate where
  | pstr : String → Populate
  | pobj : List (String × String) → Populate
  | parr : List PopElem → Populate
deriving DecidableEq, Repr

/-- JavaScript truthiness of a populate value: the empty string is falsy,
every other string is truthy, and objects and arrays are always truthy. -/
def truthyPopulate : Populate → Bool
  | Populate.pstr s => s != ""
  | Populate.pobj _ => true
  | Populate.parr _ => true

/-- The JavaScript `"path" in o` test on an object's own fields. -/
def hasKey (fields : List (String × String)) (k : String) : Bool :=
  fields.any (fun kv => kv.1 = k)

/-- `normalizePopulate` from `dist/generic-helper.js`: falsy input (absent or
the empty string) yields `undefined`; a truthy string or an object carrying a
`path` key is wrapped in a one-element array; anything else is returned
as-is. -/
def normalizePopulate : Option Populate → Option Populate
  | none => none
  | some p =>
    if truthyPopulate p then
      match p with
      | Populate.pstr s => some (Populate.parr [PopElem.pstr s])
      | Populate.pobj fs =>
        if hasKey fs "path" then some (Populate.parr [PopElem.pobj fs])
        else some (Populate.pobj fs)
      | Populate.parr es => some (Populate.parr es)
    else none

/-! Result handling. Each method awaits its one mapper call inside a
`try`/`catch`; we model the awaited outcome and the method's result. -/

/-- A JavaScript `Error` instance reaching a `catch` block: one of the two
NestJS HTTP exceptions (both subclasses of `Error`) or a plain `Error`,
each carrying its `message`. -/
inductive JsError where
  | notFoundExc : String → JsError
  | badRequestExc : String → JsError
  | plainError : String → JsError
deriving DecidableEq, Repr

/-- The `message` property of an `Error` instance. -/
def JsError.message : JsError → String
  | JsError.notFoundExc m => m
  | JsError.badRequestExc m => m
  | JsError.plainError m => m

/-- A thrown JavaScript value: an `Error` instance (`instanceof Error` holds)
or any other value (`instanceof Error` fails). -/
inductive Thrown where
  | jsErr : JsError → Thrown
  | nonError : FVal → Thrown
deriving DecidableEq, Repr

/-- The outcome of awaiting the underlying mapper call: resolution with a
value (possibly `null`, modelled by `Option`) or rejection with a thrown
value. -/
inductive Outcome (α : Type) where
  | resolved : α → Outcome α
  | rejected : Thrown → Outcome α
deriving DecidableEq, Repr

/-- The observable result of a repository method: a returned value or a
thrown value propagating to the caller. -/
inductive MethodResult (α : Type) where
  | ret : α → MethodResult α
  | thrown : Thrown → MethodResult α
deriving DecidableEq, Repr

/-- The `catch` block of `genericFindByUsername`: an `Error` is rewrapped as
`NotFoundException`, anything else is rethrown unchanged. -/
def genericFindByUsernameCatch (e : Thrown) : MethodResult (Option Doc) :=
  match e with
  | Thrown.jsErr err =>
    MethodResult.thrown (Thrown.jsErr (JsError.notFoundExc
      ("Error finding document by username: " ++ err.message)))
  | Thrown.nonError v => MethodResult.thrown (Thrown.nonError v)

/-- `genericFindByUsername` after the awaited query: a `null` response makes
the `try` block throw `NotFoundException`, which its own `catch` then
handles. -/
def genericFindByUsername (username : String) (out : Outcome (Option Doc)) :
    MethodResult (Option Doc) :=
  match out with
  | Outcome.resolved (some d) => MethodResult.ret (some d)
  | Outcome.resolved none =>
    genericFindByUsernameCatch (Thrown.jsErr (JsError.notFoundExc
      ("Document with username " ++ username ++ " not found")))
  | Outcome.rejected t => genericFindByUsernameCatch t

/-- The `catch` block of `genericFindAll`. -/
def genericFindAllCatch (e : Thrown) : MethodResult (Option (List Doc)) :=
  match e with
  | Thrown.jsErr err =>
    MethodResult.thrown (Thrown.jsErr (JsError.notFoundExc
      ("Error finding all documents: " ++ err.message)))
  | Thrown.nonError v => MethodResult.thrown (Thrown.nonError v)

/-- `genericFindAll` after the awaited query (`null` is falsy; any array,
even empty, is truthy and returned). -/
def genericFindAll (modelName : String) (out : Outcome (Option (List Doc))) :
    MethodResult (Option (List Doc)) :=
  match out with
  | Outcome.resolved (some ds) => MethodResult.ret (some ds)
  | Outcome.resolved none =>
    genericFindAllCatch (Thrown.jsErr (JsError.notFoundExc
      ("No " ++ modelName ++ " documents found")))
  | Outcome.rejected t => genericFindAllCatch t

/-- The `catch` block of `genericFindOneByIdOrNotFound`: a `NotFoundException`
is rethrown unchanged, any other `Error` is rewrapped as a plain `Error`,
anything else is rethrown unchanged. -/
def genericFindOneByIdOrNotFoundCatch (e : Thrown) : MethodResult (Option Doc) :=
  match e with
  | Thrown.jsErr (JsError.notFoundExc m) =>
    MethodResult.thrown (Thrown.jsErr (JsError.notFoundExc m))
  | Thrown.jsErr err =>
    MethodResult.thrown (Thrown.jsErr (JsError.plainError
      ("Error finding document: " ++ err.message)))
  | Thrown.nonError v => MethodResult.thrown (Thrown.nonError v)

/-- `genericFindOneByIdOrNotFound` after the awaited query. -/
def genericFindOneByIdOrNotFound (modelName id : String)
    (out : Outcome (Option Doc)) : MethodResult (Option Doc) :=
  match out with
  | Outcome.resolved (some d) => MethodResult.ret (some d)
  | Outcome.resolved none =>
    genericFindOneByIdOrNotFoundCatch (Thrown.jsErr (JsError.notFoundExc
      (modelName ++ " Document with id " ++ id ++ " not found")))
  | Outcome.rejected t => genericFindOneByIdOrNotFoundCatch t

/-- The `catch` block of `genericCreateOne`: any `Error` is rewrapped as
`BadRequestException`, anything else is rethrown unchanged. -/
def genericCreateOneCatch (e : Thrown) : MethodResult Doc :=
  match e with
  | Thrown.jsErr err =>
    MethodResult.thrown (Thrown.jsErr (JsError.badRequestExc
      ("Error creating document: " ++ err.message)))
  | Thrown.nonError v => MethodResult.thrown (Thrown.nonError v)

/-- `genericCreateOne` after the awaited `save()`: a falsy response makes the
`try` block throw `BadRequestException`, handled by its own `catch`. -/
def genericCreateOne (modelName : String) (out : Outcome (Option Doc)) :
    MethodResult Doc :=
  match out with
  | Outcome.resolved (some d) => MethodResult.ret d
  | Outcome.resolved none =>
    genericCreateOneCatch (Thrown.jsErr (JsError.badRequestExc
      ("Failed to create " ++ modelName ++ " document")))
  | Outcome.rejected t => genericCreateOneCatch t

/-- The `catch` block of `genericUpdateOne`: any `Error` (including a
`NotFoundException`, a subclass of `Error`) is rewrapped as
`BadRequestException`; anything else is rethrown unchanged. -/
def genericUpdateOneCatch (e : Thrown) : MethodResult (Option Doc) :=
  match e with
  | Thrown.jsErr err =>
    MethodResult.thrown (Thrown.jsErr (JsError.badRequestExc
      ("Error updating document: " ++ err.message)))
  | Thrown.nonError v => MethodResult.thrown (Thrown.nonError v)

/-- `genericUpdateOne` after the awaited `findOneAndUpdate`: a `null` result
makes the `try` block throw `NotFoundException`, which its own `catch` then
handles. -/
def genericUpdateOne (modelName id : String) (out : Outcome (Option Doc)) :
    MethodResult (Option Doc) :=
  match out with
  | Outcome.resolved (some d) => MethodResult.ret (some d)
  | Outcome.resolved none =>
    genericUpdateOneCatch (Thrown.jsErr (JsError.notFoundExc
      (modelName ++ " Document with id " ++ id ++ " not found")))
  | Outcome.rejected t => genericUpdateOneCatch t

/-- The `catch` block of `genericDeleteOne`: any `Error` (including a
`NotFoundException`) is rewrapped as `BadRequestException`; anything else is
rethrown unchanged. -/
def genericDeleteOneCatch (e : Thrown) : MethodResult (Option Doc) :=
  match e with
  | Thrown.jsErr err =>
    MethodResult.thrown (Thrown.jsErr (JsError.badRequestExc
      ("Error deleting document: " ++ err.message)))
  | Thrown.nonError v => MethodResult.thrown (Thrown.nonError v)

/-- `genericDeleteOne` after the awaited soft-deleting `findOneAndUpdate`. -/
def genericDeleteOne (modelName id : String) (out : Outcome (Option Doc)) :
    MethodResult (Option Doc) :=
  match out with
  | Outcome.resolved (some d) => MethodResult.ret (some d)
  | Outcome.resolved none =>
    genericDeleteOneCatch (Thrown.jsErr (JsError.notFoundExc
      (modelName ++ " Document with id " ++ id ++ " not found")))
  | Outcome.rejected t => genericDeleteOneCatch t

/-- The `catch` block of `genericFindOne`. -/
def genericFindOneCatch (e : Thrown) : MethodResult (Option Doc) :=
  match e with
  | Thrown.jsErr err =>
    MethodResult.thrown (Thrown.jsErr (JsError.notFoundExc
      ("Error finding document by filter: " ++ err.message)))
  | Thrown.nonError v => MethodResult.thrown (Thrown.nonError v)

/-- `genericFindOne` after the awaited query: the response is returned as-is,
`null` included — there is no null check in the source. -/
def genericFindOne (out : Outcome (Option Doc)) : MethodResult (Option Doc) :=
  match out with
  | Outcome.resolved r => MethodResult.ret r
  | Outcome.rejected t => genericFindOneCatch t

/-- The `catch` block of `genericFindOneWithPopulate`. -/
def genericFindOneWithPopulateCatch (e : Thrown) : MethodResult (Option Doc) :=
  match e with
  | Thrown.jsErr err =>
    MethodResult.thrown (Thrown.jsErr (JsError.notFoundExc
      ("Error finding and populating document: " ++ err.message)))
  | Thrown.nonError v => MethodResult.thrown (Thrown.nonError v)

/-- `genericFindOneWithPopulate` after the awaited query: the response is
returned as-is, `null` included. -/
def genericFindOneWithPopulate (out : Outcome (Option Doc)) :
    MethodResult (Option Doc) :=
  match out with
  | Outcome.resolved r => MethodResult.ret r
  | Outcome.rejected t => genericFindOneWithPopulateCatch t

/-- The `catch` block of `genericFindAllWithPopulate`. -/
def genericFindAllWithPopulateCatch (e : Thrown) :
    MethodResult (Option (List Doc)) :=
  match e with
  | Thrown.jsErr err =>
    MethodResult.thrown (Thrown.jsErr (JsError.notFoundExc
      ("Error finding and populating documents: " ++ err.message)))
  | Thrown.nonError v => MethodResult.thrown (Thrown.nonError v)

/-- `genericFindAllWithPopulate` after the awaited query: the response is
returned as-is, with no null check. -/
def genericFindAllWithPopulate (out : Outcome (Option (List Doc))) :
    MethodResult (Option (List Doc)) :=
  match out with
  | Outcome.resolved r => MethodResult.ret r
  | Outcome.rejected t => genericFindAllWithPopulateCatch t

/-- The `catch` block of `genericFindOneOrNotFound`. -/
def genericFindOneOrNotFoundCatch (e : Thrown) : MethodResult (Option Doc) :=
  match e with
  | Thrown.jsErr err =>
    MethodResult.thrown (Thrown.jsErr (JsError.notFoundExc
      ("Error finding document by filter: " ++ err.message)))
  | Thrown.nonError v => MethodResult.thrown (Thrown.nonError v)

/-- `genericFindOneOrNotFound` after the awaited query: a `null` response
makes the `try` block throw `NotFoundException`, handled by its own
`catch`. -/
def genericFindOneOrNotFound (modelName : String)
    (out : Outcome (Option Doc)) : MethodResult (Option Doc) :=
  match out with
  | Outcome.resolved (some d) => MethodResult.ret (some d)
  | Outcome.resolved none =>
    genericFindOneOrNotFoundCatch (Thrown.jsErr (JsError.notFoundExc
      (modelName ++ " Document not found with provided filter")))
  | Outcome.rejected t => genericFindOneOrNotFoundCatch t

/-- The method result is a thrown `NotFoundException` or
`BadRequestException` — one of the wrapper's two exception kinds. -/
def raisesKnownException {α : Type} : MethodResult α → Prop
  | MethodResult.thrown (Thrown.jsErr (JsError.notFoundExc _)) => True
  | MethodResult.thrown (Thrown.jsErr (JsError.badRequestExc _)) => True
  | _ => False

/-! Theorems. -/

/-- The spread-built object always reads the appended binding for its key:
the last binding wins. -/
theorem getKey_append_last (f : FilterObj) (k : String) (v : FVal) :
    getKey (f ++ [(k, v)]) k = some v := by
  induction f with
  | nil => simp [getKey]
  | cons hd tl ih =>
    obtain ⟨k2, w⟩ := hd
    simp [getKey, ih]

/-- Claim C1: every read, update and delete operation of `GenericDatabase`
sends the document-mapper a query whose filter constrains `isDeleted` to
`false`; `genericDeleteOne` issues a `findOneAndUpdate` that sets `isDeleted`
to `true`; and no method ever issues a hard deletion. -/
theorem genericDatabase_soft_delete_convention :
    (∀ u, queryFiltersNonDeleted (genericFindByUsernameQuery u)
      ∧ isHardDeletion (genericFindByUsernameQuery u) = false)
  ∧ (queryFiltersNonDeleted genericFindAllQuery
      ∧ isHardDeletion genericFindAllQuery = false)
  ∧ (∀ id, queryFiltersNonDeleted (genericFindOneByIdOrNotFoundQuery id)
      ∧ isHardDeletion (genericFindOneByIdOrNotFoundQuery id) = false)
  ∧ (∀ id dto, queryFiltersNonDeleted (genericUpdateOneQuery id dto)
      ∧ isHardDeletion (genericUpdateOneQuery id dto) = false)
  ∧ (∀ id, genericDeleteOneQuery id
        = MapperCall.findOneAndUpdate
            [("_id", FVal.str id), ("isDeleted", FVal.bool false)]
            [("isDeleted", FVal.bool true)] true
      ∧ queryFiltersNonDeleted (genericDeleteOneQuery id)
      ∧ isHardDeletion (genericDeleteOneQuery id) = false)
  ∧ (∀ f, queryFiltersNonDeleted (genericFindOneQuery f)
      ∧ isHardDeletion (genericFindOneQuery f) = false)
  ∧ (∀ f, queryFiltersNonDeleted (genericFindOneWithPopulateQuery f)
      ∧ isHardDeletion (genericFindOneWithPopulateQuery f) = false)
  ∧ (∀ f, queryFiltersNonDeleted (genericFindAllWithPopulateQuery f)
      ∧ isHardDeletion (genericFindAllWithPopulateQuery f) = false)
  ∧ (∀ f, queryFiltersNonDeleted (genericFindOneOrNotFoundQuery f)
      ∧ isHardDeletion (genericFindOneOrNotFoundQuery f) = false)
  ∧ (∀ dto, isHardDeletion (genericCreateOneQuery dto) = false) := by
  refine ⟨fun u => ⟨?_, rfl⟩, ⟨?_, rfl⟩, fun id => ⟨?_, rfl⟩,
    fun id dto => ⟨?_, rfl⟩, fun id => ⟨rfl, ?_, rfl⟩, fun f => ⟨?_, rfl⟩,
    fun f => ⟨?_, rfl⟩, fun f => ⟨?_, rfl⟩, fun f => ⟨?_, rfl⟩,
    fun dto => rfl⟩ <;>
  simp [queryFiltersNonDeleted, genericFindByUsernameQuery, genericFindAllQuery,
    genericFindOneByIdOrNotFoundQuery, genericUpdateOneQuery,
    genericDeleteOneQuery, genericFindOneQuery, genericFindOneWithPopulateQuery,
    genericFindAllWithPopulateQuery, genericFindOneOrNotFoundQuery,
    spreadWithIsDeletedFalse, getKey, getKey_append_last]

/-- Claim C2 (behaviour at the failing input): when the by-id
`findOneAndUpdate` of `genericUpdateOne` or `genericDeleteOne` resolves with
`null` (no non-deleted document matches), the `NotFoundException` thrown in
the `try` block is caught by the method's own `catch`, satisfies
`instanceof Error`, and is rewrapped as `BadRequestException` — contradicting
the methods' own `@throws` documentation. -/
theorem genericUpdateOne_deleteOne_missing_doc_becomes_bad_request :
    genericUpdateOne "User" "someId" (Outcome.resolved none)
      = MethodResult.thrown (Thrown.jsErr (JsError.badRequestExc
          "Error updating document: User Document with id someId not found"))
  ∧ genericDeleteOne "User" "someId" (Outcome.resolved none)
      = MethodResult.thrown (Thrown.jsErr (JsError.badRequestExc
          "Error deleting document: User Document with id someId not found")) := by
  exact ⟨rfl, rfl⟩

/-- Claim C3 (counterexample): `genericFindOne` returns a `null` awaited
result to the caller unchanged; it raises no exception. -/
theorem genericFindOne_null_returned_not_raised :
    genericFindOne (Outcome.resolved none) = MethodResult.ret none
  ∧ ¬ raisesKnownException (genericFindOne (Outcome.resolved none)) :=
  ⟨rfl, fun h => h⟩

/-- Claim C3 (amended): every method of `GenericDatabase` except
`genericFindOne`, `genericFindOneWithPopulate` and
`genericFindAllWithPopulate` converts a `null` awaited result into one of the
two exception kinds; those three return the `null` unchanged. -/
theorem null_result_conversion_by_method (modelName username id : String) :
    raisesKnownException (genericFindByUsername username (Outcome.resolved none))
  ∧ raisesKnownException (genericFindAll modelName (Outcome.resolved none))
  ∧ raisesKnownException
      (genericFindOneByIdOrNotFound modelName id (Outcome.resolved none))
  ∧ raisesKnownException (genericCreateOne modelName (Outcome.resolved none))
  ∧ raisesKnownException (genericUpdateOne modelName id (Outcome.resolved none))
  ∧ raisesKnownException (genericDeleteOne modelName id (Outcome.resolved none))
  ∧ raisesKnownException (genericFindOneOrNotFound modelName (Outcome.resolved none))
  ∧ genericFindOne (Outcome.resolved none) = MethodResult.ret none
  ∧ genericFindOneWithPopulate (Outcome.resolved none) = MethodResult.ret none
  ∧ genericFindAllWithPopulate (Outcome.resolved none) = MethodResult.ret none :=
  ⟨trivial, trivial, trivial, trivial, trivial, trivial, trivial, rfl, rfl, rfl⟩

/-- Claim C4: a by-id lookup through `genericFindOneByIdOrNotFound` that
resolves with `null` throws `NotFoundException`, and the `catch` handler
rethrows any `NotFoundException` unchanged instead of rewrapping it. -/
theorem genericFindOneByIdOrNotFound_missing_raises_not_found
    (modelName id : String) :
    genericFindOneByIdOrNotFound modelName id (Outcome.resolved none)
      = MethodResult.thrown (Thrown.jsErr (JsError.notFoundExc
          (modelName ++ " Document with id " ++ id ++ " not found")))
  ∧ ∀ m, genericFindOneByIdOrNotFoundCatch (Thrown.jsErr (JsError.notFoundExc m))
      = MethodResult.thrown (Thrown.jsErr (JsError.notFoundExc m)) :=
  ⟨rfl, fun m => rfl⟩

/-- Claim C5: when the underlying `save()` of `genericCreateOne` rejects with
any `Error` instance, the method throws `BadRequestException`. -/
theorem genericCreateOne_error_raises_bad_request (modelName : String)
    (e : JsError) :
    genericCreateOne modelName (Outcome.rejected (Thrown.jsErr e))
      = MethodResult.thrown (Thrown.jsErr (JsError.badRequestExc
          ("Error creating document: " ++ e.message))) := rfl

/-- Claim C6: every method of `GenericDatabase` rethrows a non-`Error`
failure value unchanged, never reclassifying it. -/
theorem non_error_failures_rethrown_unchanged
    (modelName username id : String) (v : FVal) :
    genericFindByUsername username (Outcome.rejected (Thrown.nonError v))
      = MethodResult.thrown (Thrown.nonError v)
  ∧ genericFindAll modelName (Outcome.rejected (Thrown.nonError v))
      = MethodResult.thrown (Thrown.nonError v)
  ∧ genericFindOneByIdOrNotFound modelName id (Outcome.rejected (Thrown.nonError v))
      = MethodResult.thrown (Thrown.nonError v)
  ∧ genericCreateOne modelName (Outcome.rejected (Thrown.nonError v))
      = MethodResult.thrown (Thrown.nonError v)
  ∧ genericUpdateOne modelName id (Outcome.rejected (Thrown.nonError v))
      = MethodResult.thrown (Thrown.nonError v)
  ∧ genericDeleteOne modelName id (Outcome.rejected (Thrown.nonError v))
      = MethodResult.thrown (Thrown.nonError v)
  ∧ genericFindOne (Outcome.rejected (Thrown.nonError v))
      = MethodResult.thrown (Thrown.nonError v)
  ∧ genericFindOneWithPopulate (Outcome.rejected (Thrown.nonError v))
      = MethodResult.thrown (Thrown.nonError v)
  ∧ genericFindAllWithPopulate (Outcome.rejected (Thrown.nonError v))
      = MethodResult.thrown (Thrown.nonError v)
  ∧ genericFindOneOrNotFound modelName (Outcome.rejected (Thrown.nonError v))
      = MethodResult.thrown (Thrown.nonError v) :=
  ⟨rfl, rfl, rfl, rfl, rfl, rfl, rfl, rfl, rfl, rfl⟩

/-- Claim C7 (counterexample): the empty string is falsy in JavaScript, so
`normalizePopulate("")` returns `undefined`, not `[""]`. -/
theorem normalizePopulate_empty_string_yields_undefined :
    normalizePopulate (some (Populate.pstr "")) = none
  ∧ normalizePopulate (some (Populate.pstr ""))
      ≠ some (Populate.parr [PopElem.pstr ""]) := by
  constructor
  · decide
  · decide

/-- Claim C7 (amended): for every non-empty string `s`, `normalizePopulate s`
returns the single-element array `[s]`. -/
theorem normalizePopulate_nonempty_string_wrapped (s : String) (h : s ≠ "") :
    normalizePopulate (some (Populate.pstr s))
      = some (Populate.parr [PopElem.pstr s]) := by
  simp [normalizePopulate, truthyPopulate, h]

/-- Witness for the amended C7 at the concrete string "user". -/
theorem normalizePopulate_nonempty_string_wrapped_witness :
    ("user" : String) ≠ ""
  ∧ normalizePopulate (some (Populate.pstr "user"))
      = some (Populate.parr [PopElem.pstr "user"]) :=
  ⟨by decide, normalizePopulate_nonempty_string_wrapped "user" (by decide)⟩

/-- Claim C8: a populate-options object carrying a `path` key is wrapped in a
single-element array containing that very object. -/
theorem normalizePopulate_path_object_wrapped (fs : List (String × String))
    (h : hasKey fs "path" = true) :
    normalizePopulate (some (Populate.pobj fs))
      = some (Populate.parr [PopElem.pobj fs]) := by
  simp [normalizePopulate, truthyPopulate, h]

/-- Witness for C8 at the concrete object with fields path and select. -/
theorem normalizePopulate_path_object_wrapped_witness :
    hasKey [("path", "user"), ("select", "name email")] "path" = true
  ∧ normalizePopulate
      (some (Populate.pobj [("path", "user"), ("select", "name email")]))
      = some (Populate.parr [PopElem.pobj [("path", "user"), ("select", "name email")]]) :=
  ⟨by decide, normalizePopulate_path_object_wrapped _ (by decide)⟩

/-- Claim C9: `normalizePopulate` is the identity on array inputs — any array
of strings and/or populate-options objects is returned unchanged. -/
theorem normalizePopulate_array_identity (es : List PopElem) :
    normalizePopulate (some (Populate.parr es)) = some (Populate.parr es) := rfl

/-- Claim C10: the four filter-taking methods build their effective query by
spreading the caller's filter and then setting `isDeleted` to `false`, so the
effective query always reads `isDeleted = false`, even when the caller's
filter contains `isDeleted: true`. -/
theorem caller_filter_isDeleted_overridden :
    (∀ f, genericFindOneQuery f = MapperCall.findOne (spreadWithIsDeletedFalse f))
  ∧ (∀ f, genericFindOneWithPopulateQuery f
        = MapperCall.findOne (spreadWithIsDeletedFalse f))
  ∧ (∀ f, genericFindAllWithPopulateQuery f
        = MapperCall.find (spreadWithIsDeletedFalse f))
  ∧ (∀ f, genericFindOneOrNotFoundQuery f
        = MapperCall.findOne (spreadWithIsDeletedFalse f))
  ∧ (∀ f, getKey (spreadWithIsDeletedFalse f) "isDeleted"
        = some (FVal.bool false))
  ∧ (∀ f, getKey (spreadWithIsDeletedFalse (("isDeleted", FVal.bool true) :: f))
        "isDeleted" = some (FVal.bool false)) :=
  ⟨fun f => rfl, fun f => rfl, fun f => rfl, fun f => rfl,
    fun f => getKey_append_last f "isDeleted" (FVal.bool false),
    fun f => getKey_append_last (("isDeleted", FVal.bool true) :: f)
      "isDeleted" (FVal.bool false)⟩
